import Mathlib

/-!
Verification of the duty/type surface of `sn_node` (`src/node_ops.rs`,
`src/node/elder_duties/metadata/writing.rs`) together with spec-modelled
definitions of the AT2 transfer-ledger protocol whose bodies live outside
the provided sources.

External library types (from `sn_data_types`, `sn_messaging`, `sn_routing`,
`xor_name`, `bls`, `safe_nd`) are never inspected by the code under
verification; they are embedded as opaque payloads (`Nat`), while container
payloads (`BTreeMap`, `BTreeSet`, `Option`) become `List`/`Option`.
-/

-- =========================================================================
-- Opaque embeddings of external payload types used by `node_ops.rs`.
-- =========================================================================

abbrev XorName := Nat
abbrev MessageId := Nat
abbrev SrcLocation := Nat
abbrev EndUser := Nat
abbrev PublicKey := Nat
abbrev DstLocation := Nat
abbrev Aggregation := Nat
abbrev Message := Nat
abbrev BlobRead := Nat
abbrev BlobWrite := Nat
abbrev Blob := Nat
abbrev BlobAddress := Nat
abbrev SignatureShare := Nat
abbrev SignedCredit := Nat
abbrev Credit := Nat
abbrev PrefixVal := Nat
abbrev Elders := Nat
abbrev SectionElders := Nat
abbrev ActorHistory := Nat
abbrev WalletHistory := Nat
abbrev PublicKeySet := Nat
abbrev TransferValidated := Nat
abbrev CreditAgreementProof := Nat
abbrev TransferAgreementProof := Nat
abbrev SignedTransfer := Nat
abbrev SignedTransferShare := Nat
abbrev Transfer := Nat
abbrev ReplicaEventPayload := Nat
abbrev ClientDataQuery := Nat
abbrev ClientDataCmd := Nat

/-- NodeRewardStage from `sn_data_types`, as described by the spec data
model: AwaitingActivation, Active(wallet key), Deactivated. -/
inductive NodeRewardStage
  | AwaitingActivation
  | Active (wallet : PublicKey)
  | Deactivated
deriving DecidableEq

-- =========================================================================
-- Duty enums of `src/node_ops.rs`.
-- =========================================================================

/-- OutgoingMsg struct of `node_ops.rs`. -/
structure OutgoingMsg where
  msg : Message
  dst : DstLocation
  section_source : Bool
  aggregation : Aggregation
deriving DecidableEq

/-- TransferQuery enum of `node_ops.rs` (queries handled by AT2 Replicas). -/
inductive TransferQuery
  | GetReplicaKeys (key : PublicKey)
  | GetBalance (key : PublicKey)
  | GetHistory (at_key : PublicKey) (since_version : Nat)
  | GetReplicaEvents
  | GetStoreCost (requester : PublicKey) (bytes : Nat)
deriving DecidableEq

/-- TransferCmd enum of `node_ops.rs` (cmds carried out on AT2 Replicas).
The `SimulatePayout` variant is gated by the `simulated-payouts` feature
in the source and is included here. -/
inductive TransferCmd
  | InitiateReplica (events : List ReplicaEventPayload)
  | ProcessPayment (msg : Message)
  | SimulatePayout (transfer : Transfer)
  | ValidateTransfer (signed_transfer : SignedTransfer)
  | RegisterTransfer (proof : TransferAgreementProof)
  | PropagateTransfer (proof : CreditAgreementProof)
  | ValidateSectionPayout (share : SignedTransferShare)
  | RegisterSectionPayout (proof : TransferAgreementProof)
deriving DecidableEq

/-- TransferDuty enum of `node_ops.rs`. -/
inductive TransferDuty
  | ProcessQuery (query : TransferQuery) (msg_id : MessageId) (origin : SrcLocation)
  | ProcessCmd (cmd : TransferCmd) (msg_id : MessageId) (origin : SrcLocation)
  | NoOp
deriving DecidableEq

/-- RewardQuery enum of `node_ops.rs`. -/
inductive RewardQuery
  | GetNodeWalletId (old_node_id : XorName) (new_node_id : XorName)
deriving DecidableEq

/-- RewardCmd enum of `node_ops.rs`. -/
inductive RewardCmd
  | SynchHistory (history : WalletHistory)
  | ContinueWalletChurn (key_set : PublicKeySet)
  | AddNewNode (node_id : XorName)
  | SetNodeWallet (node_id : XorName) (wallet_id : PublicKey)
  | AddRelocatingNode (old_node_id : XorName) (new_node_id : XorName) (age : Nat)
  | ActivateNodeRewards (id : PublicKey) (node_id : XorName)
  | DeactivateNode (node_id : XorName)
  | ReceivePayoutValidation (validation : TransferValidated)
deriving DecidableEq

/-- RewardDuty enum of `node_ops.rs`. -/
inductive RewardDuty
  | ProcessQuery (query : RewardQuery) (msg_id : MessageId) (origin : SrcLocation)
  | ProcessCmd (cmd : RewardCmd) (msg_id : MessageId) (origin : SrcLocation)
  | NoOp
deriving DecidableEq

/-- MetadataDuty enum of `node_ops.rs`. -/
inductive MetadataDuty
  | ProcessRead (query : ClientDataQuery) (id : MessageId) (origin : EndUser)
  | ProcessWrite (cmd : ClientDataCmd) (id : MessageId) (origin : EndUser)
  | NoOp
deriving DecidableEq

/-- DataSectionDuty enum of `node_ops.rs`. -/
inductive DataSectionDuty
  | RunAsMetadata (duty : MetadataDuty)
  | RunAsRewards (duty : RewardDuty)
  | NoOp
deriving DecidableEq

/-- KeySectionDuty enum of `node_ops.rs`. -/
inductive KeySectionDuty
  | RunAsTransfers (duty : TransferDuty)
  | NoOp
deriving DecidableEq

/-- ElderDuty enum of `node_ops.rs`. -/
inductive ElderDuty
  | ProcessNewMember (name : XorName)
  | ProcessLostMember (name : XorName) (age : Nat)
  | ProcessRelocatedMember (old_node_id : XorName) (new_node_id : XorName) (age : Nat)
  | RunAsKeySection (duty : KeySectionDuty)
  | RunAsDataSection (duty : DataSectionDuty)
  | NoOp
  | StorageFull (node_id : PublicKey)
  | SwitchNodeJoin (enabled : Bool)
deriving DecidableEq

/-- ChunkStoreDuty enum of `node_ops.rs`. -/
inductive ChunkStoreDuty
  | ReadChunk (read : BlobRead) (id : MessageId) (origin : EndUser)
  | WriteChunk (write : BlobWrite) (id : MessageId) (origin : EndUser)
  | NoOp
deriving DecidableEq

/-- ChunkReplicationQuery enum of `node_ops.rs`. -/
inductive ChunkReplicationQuery
  | GetChunk (address : BlobAddress)
deriving DecidableEq

/-- ChunkReplicationCmd enum of `node_ops.rs`. -/
inductive ChunkReplicationCmd
  | ReplicateChunk (current_holders : List XorName) (address : BlobAddress)
  | StoreReplicatedBlob (blob : Blob)
deriving DecidableEq

/-- ChunkReplicationDuty enum of `node_ops.rs`. -/
inductive ChunkReplicationDuty
  | ProcessCmd (cmd : ChunkReplicationCmd) (msg_id : MessageId) (origin : SrcLocation)
  | ProcessQuery (query : ChunkReplicationQuery) (msg_id : MessageId) (origin : SrcLocation)
  | NoOp
deriving DecidableEq

/-- AdultDuty enum of `node_ops.rs`. -/
inductive AdultDuty
  | RunAsChunkStore (duty : ChunkStoreDuty)
  | RunAsChunkReplication (duty : ChunkReplicationDuty)
  | NoOp
deriving DecidableEq

/-- NodeDuty enum of `node_ops.rs` (common duties run by all nodes). -/
inductive NodeDuty
  | GetNodeWalletKey (old_node_id : XorName) (new_node_id : XorName)
      (msg_id : MessageId) (origin : SrcLocation)
  | PayoutNodeRewards (id : PublicKey) (node_id : XorName)
      (msg_id : MessageId) (origin : SrcLocation)
  | PropagateTransfer (proof : CreditAgreementProof)
      (msg_id : MessageId) (origin : SrcLocation)
  | RegisterSectionPayout (debit_agreement : TransferAgreementProof)
      (msg_id : MessageId) (origin : SrcLocation)
  | SetNodeWallet (wallet_id : PublicKey) (node_id : XorName)
      (msg_id : MessageId) (origin : SrcLocation)
  | ReceivePayoutValidation (validation : TransferValidated)
      (msg_id : MessageId) (origin : SrcLocation)
  | GetTransferReplicaEvents (msg_id : MessageId) (origin : SrcLocation)
  | ValidateSectionPayout (signed_transfer : SignedTransferShare)
      (msg_id : MessageId) (origin : SrcLocation)
  | ReadChunk (read : BlobRead) (msg_id : MessageId) (origin : EndUser)
  | WriteChunk (write : BlobWrite) (msg_id : MessageId) (origin : EndUser)
  | ContinueWalletChurn (replicas : SectionElders)
      (msg_id : MessageId) (origin : SrcLocation)
  | GetSectionElders (msg_id : MessageId) (origin : SrcLocation)
  | BeginFormingGenesisSection
  | ReceiveGenesisProposal (credit : Credit) (sig : SignatureShare)
  | ReceiveGenesisAccumulation (signed_credit : SignedCredit) (sig : SignatureShare)
  | UpdateElderInfo (prefixVal : PrefixVal) (key : PublicKey)
      (elders : List XorName) (sibling_key : Option PublicKey)
  | CompleteElderChange (previous_key : PublicKey) (new_key : PublicKey)
  | ChurnMembers (elders : Elders) (sibling_elders : Option Elders)
  | LevelUp
  | LevelDown
  | ContinueLevelUp (node_rewards : List (XorName × NodeRewardStage))
      (user_wallets : List (PublicKey × ActorHistory))
  | CompleteLevelUp (history : WalletHistory)
  | ProcessNewMember (name : XorName)
  | ProcessLostMember (name : XorName) (age : Nat)
  | ProcessRelocatedMember (old_node_id : XorName) (new_node_id : XorName) (age : Nat)
  | ReachingMaxCapacity
  | IncrementFullNodeCount (node_id : PublicKey)
  | SwitchNodeJoin (enabled : Bool)
  | Send (msg : OutgoingMsg)
  | SendToNodes (targets : List XorName) (msg : Message)
  | ProcessRead (query : ClientDataQuery) (id : MessageId) (origin : EndUser)
  | ProcessWrite (cmd : ClientDataCmd) (id : MessageId) (origin : EndUser)
  | ProcessDataPayment (msg : Message) (origin : EndUser)
  | ReplicateChunk (address : BlobAddress) (current_holders : List XorName)
      (id : MessageId)
  | GetChunkForReplication (address : BlobAddress) (new_holder : XorName)
      (id : MessageId)
  | StoreChunkForReplication (data : Blob) (correlation_id : MessageId)
  | NoOp
deriving DecidableEq

/-- NetworkDuty enum of `node_ops.rs` (all duties carried out by a node). -/
inductive NetworkDuty
  | RunAsAdult (duty : AdultDuty)
  | RunAsElder (duty : ElderDuty)
  | RunAsNode (duty : NodeDuty)
  | NoOp
deriving DecidableEq

/-- Vec of NodeDuty. -/
abbrev NodeDuties := List NodeDuty

/-- Vec of NetworkDuty. -/
abbrev NetworkDuties := List NetworkDuty

-- =========================================================================
-- The From conversions of `src/node_ops.rs`.
-- =========================================================================

/-- The `matches!(duty, NodeDuty::NoOp)` test. -/
def NodeDuty.isNoOp : NodeDuty → Bool
  | NodeDuty.NoOp => true
  | _ => false

/-- impl From of NodeDuty for NodeDuties (`node_ops.rs` lines 256-264). -/
def nodeDutiesOf (duty : NodeDuty) : NodeDuties :=
  if duty.isNoOp then [] else [duty]

/-- The `matches!(duty, AdultDuty::NoOp)` test. -/
def AdultDuty.isNoOp : AdultDuty → Bool
  | AdultDuty.NoOp => true
  | _ => false

/-- impl From of AdultDuty for NetworkDuties (`node_ops.rs` lines 359-368). -/
def networkDutiesOfAdult (duty : AdultDuty) : NetworkDuties :=
  if duty.isNoOp then [] else [NetworkDuty.RunAsAdult duty]

/-- impl From of AdultDuty for NetworkDuty (`node_ops.rs` lines 370-375). -/
def networkDutyOfAdult (duty : AdultDuty) : NetworkDuty :=
  NetworkDuty.RunAsAdult duty

/-- The `matches!(duty, ElderDuty::NoOp)` test. -/
def ElderDuty.isNoOp : ElderDuty → Bool
  | ElderDuty.NoOp => true
  | _ => false

/-- impl From of ElderDuty for NetworkDuties (`node_ops.rs` lines 413-422). -/
def networkDutiesOfElder (duty : ElderDuty) : NetworkDuties :=
  if duty.isNoOp then [] else [NetworkDuty.RunAsElder duty]

/-- impl From of ElderDuty for NetworkDuty (`node_ops.rs` lines 424-429). -/
def networkDutyOfElder (duty : ElderDuty) : NetworkDuty :=
  NetworkDuty.RunAsElder duty

/-- The `matches!(duty, KeySectionDuty::NoOp)` test. -/
def KeySectionDuty.isNoOp : KeySectionDuty → Bool
  | KeySectionDuty.NoOp => true
  | _ => false

/-- impl From of KeySectionDuty for NetworkDuties (`node_ops.rs` lines 441-451). -/
def networkDutiesOfKeySection (duty : KeySectionDuty) : NetworkDuties :=
  if duty.isNoOp then []
  else [NetworkDuty.RunAsElder (ElderDuty.RunAsKeySection duty)]

/-- The `matches!(duty, MetadataDuty::NoOp)` test. -/
def MetadataDuty.isNoOp : MetadataDuty → Bool
  | MetadataDuty.NoOp => true
  | _ => false

/-- impl From of MetadataDuty for NetworkDuties (`node_ops.rs` lines 497-508). -/
def networkDutiesOfMetadata (duty : MetadataDuty) : NetworkDuties :=
  if duty.isNoOp then []
  else [NetworkDuty.RunAsElder
          (ElderDuty.RunAsDataSection (DataSectionDuty.RunAsMetadata duty))]

/-- The `matches!(duty, RewardDuty::NoOp)` test. -/
def RewardDuty.isNoOp : RewardDuty → Bool
  | RewardDuty.NoOp => true
  | _ => false

/-- impl From of RewardDuty for NetworkDuties (`node_ops.rs` lines 672-683). -/
def networkDutiesOfReward (duty : RewardDuty) : NetworkDuties :=
  if duty.isNoOp then []
  else [NetworkDuty.RunAsElder
          (ElderDuty.RunAsDataSection (DataSectionDuty.RunAsRewards duty))]

/-- impl From of RewardDuty for NetworkDuty (`node_ops.rs` lines 685-692). -/
def networkDutyOfReward (duty : RewardDuty) : NetworkDuty :=
  NetworkDuty.RunAsElder
    (ElderDuty.RunAsDataSection (DataSectionDuty.RunAsRewards duty))

/-- The `matches!(duty, TransferDuty::NoOp)` test. -/
def TransferDuty.isNoOp : TransferDuty → Bool
  | TransferDuty.NoOp => true
  | _ => false

/-- impl From of TransferDuty for NetworkDuties (`node_ops.rs` lines 720-731). -/
def networkDutiesOfTransfer (duty : TransferDuty) : NetworkDuties :=
  if duty.isNoOp then []
  else [NetworkDuty.RunAsElder
          (ElderDuty.RunAsKeySection (KeySectionDuty.RunAsTransfers duty))]

-- =========================================================================
-- Client-facing commands/queries from `sn_messaging::client` and their
-- conversions into the internal types (`node_ops.rs` lines 782-816).
-- =========================================================================

/-- sn_messaging client TransferCmd: the three variants matched by the
From impl at `node_ops.rs` lines 782-797. -/
inductive ClientTransferCmd
  | SimulatePayout (transfer : Transfer)
  | ValidateTransfer (signed_transfer : SignedTransfer)
  | RegisterTransfer (proof : TransferAgreementProof)
deriving DecidableEq

/-- sn_messaging client TransferQuery: the four variants matched by the
From impl at `node_ops.rs` lines 799-816. -/
inductive ClientTransferQuery
  | GetReplicaKeys (key : PublicKey)
  | GetBalance (key : PublicKey)
  | GetHistory (at_key : PublicKey) (since_version : Nat)
  | GetStoreCost (requester : PublicKey) (bytes : Nat)
deriving DecidableEq

/-- impl From of client TransferCmd for internal TransferCmd
(`node_ops.rs` lines 782-797). -/
def transferCmdOfClient (cmd : ClientTransferCmd) : TransferCmd :=
  match cmd with
  | ClientTransferCmd.SimulatePayout transfer =>
      TransferCmd.SimulatePayout transfer
  | ClientTransferCmd.ValidateTransfer signed_transfer =>
      TransferCmd.ValidateTransfer signed_transfer
  | ClientTransferCmd.RegisterTransfer transfer_agreement =>
      TransferCmd.RegisterTransfer transfer_agreement

/-- impl From of client TransferQuery for internal TransferQuery
(`node_ops.rs` lines 799-816). -/
def transferQueryOfClient (query : ClientTransferQuery) : TransferQuery :=
  match query with
  | ClientTransferQuery.GetReplicaKeys transfer =>
      TransferQuery.GetReplicaKeys transfer
  | ClientTransferQuery.GetBalance public_key =>
      TransferQuery.GetBalance public_key
  | ClientTransferQuery.GetHistory at_key since_version =>
      TransferQuery.GetHistory at_key since_version
  | ClientTransferQuery.GetStoreCost requester bytes =>
      TransferQuery.GetStoreCost requester bytes

/-- Classifier for the internal TransferCmd variants that the client
conversion is allowed to produce. -/
def TransferCmd.clientOriginated : TransferCmd → Bool
  | TransferCmd.SimulatePayout _ => true
  | TransferCmd.ValidateTransfer _ => true
  | TransferCmd.RegisterTransfer _ => true
  | _ => false

-- =========================================================================
-- Embedding of `src/node/elder_duties/metadata/writing.rs`.
-- The four store types and their `write` methods live in sibling modules
-- (`blob_register.rs`, `map_storage.rs`, ...); `Writing` only forwards to
-- them, so their behavior is kept fully abstract (quantified over).
-- =========================================================================

namespace Metadata

abbrev BlobWriteOp := Nat
abbrev MapWriteOp := Nat
abbrev SequenceWriteOp := Nat
abbrev AccountWriteOp := Nat
abbrev NodeCmd := Nat
abbrev BlobRegister := Nat
abbrev MapStorage := Nat
abbrev SequenceStorage := Nat
abbrev AccountStorage := Nat

/-- The parts of safe_nd MsgEnvelope that `writing.rs` reads:
`msg.id()` and `msg.origin`, plus the rest of the envelope. -/
structure MsgEnvelope where
  id : MessageId
  origin : Nat
  body : Nat
deriving DecidableEq

/-- safe_nd DataCmd as matched by `Writing::get_result`. -/
inductive DataCmd
  | Blob (write : BlobWriteOp)
  | Map (write : MapWriteOp)
  | Sequence (write : SequenceWriteOp)
  | Account (write : AccountWriteOp)
deriving DecidableEq

/-- ElderStores: the four stores handed to `Writing::get_result` via
`blob_register_mut` / `map_storage_mut` / `sequence_storage_mut` /
`account_storage_mut`. -/
structure ElderStores where
  blob_register : BlobRegister
  map_storage : MapStorage
  sequence_storage : SequenceStorage
  account_storage : AccountStorage
deriving DecidableEq

/-- The `write` methods of the four stores, which live outside the
verified sources; each consumes and returns its store state explicitly
(state-passing rendering of `&mut`), mirroring the argument shapes in
`writing.rs`: BlobRegister/MapStorage take the whole envelope,
SequenceStorage/AccountStorage take `msg.id()` and `msg.origin`. -/
structure StoreBehavior where
  blobWrite : BlobWriteOp → MsgEnvelope → BlobRegister → BlobRegister × Option NodeCmd
  mapWrite : MapWriteOp → MsgEnvelope → MapStorage → MapStorage × Option NodeCmd
  sequenceWrite : SequenceWriteOp → MessageId → Nat → SequenceStorage →
      SequenceStorage × Option NodeCmd
  accountWrite : AccountWriteOp → MessageId → Nat → AccountStorage →
      AccountStorage × Option NodeCmd

/-- The `Writing` struct of `writing.rs`. -/
structure Writing where
  cmd : DataCmd
  msg : MsgEnvelope
deriving DecidableEq

/-- `Writing::blob` (`writing.rs` lines 36-38). -/
def blob (b : StoreBehavior) (w : Writing) (write : BlobWriteOp)
    (register : BlobRegister) : BlobRegister × Option NodeCmd :=
  b.blobWrite write w.msg register

/-- `Writing::map` (`writing.rs` lines 40-42). -/
def map (b : StoreBehavior) (w : Writing) (write : MapWriteOp)
    (storage : MapStorage) : MapStorage × Option NodeCmd :=
  b.mapWrite write w.msg storage

/-- `Writing::sequence` (`writing.rs` lines 44-46). -/
def sequence (b : StoreBehavior) (w : Writing) (write : SequenceWriteOp)
    (storage : SequenceStorage) : SequenceStorage × Option NodeCmd :=
  b.sequenceWrite write w.msg.id w.msg.origin storage

/-- `Writing::account` (`writing.rs` lines 48-50). -/
def account (b : StoreBehavior) (w : Writing) (write : AccountWriteOp)
    (storage : AccountStorage) : AccountStorage × Option NodeCmd :=
  b.accountWrite write w.msg.id w.msg.origin storage

/-- `Writing::get_result` (`writing.rs` lines 26-34): matches the cloned
command and forwards to the store selected by the variant; the store
mutation is rendered by returning the updated `ElderStores`. -/
def get_result (b : StoreBehavior) (w : Writing) (stores : ElderStores) :
    ElderStores × Option NodeCmd :=
  match w.cmd with
  | DataCmd.Blob write =>
      let r := blob b w write stores.blob_register
      ({ stores with blob_register := r.1 }, r.2)
  | DataCmd.Map write =>
      let r := map b w write stores.map_storage
      ({ stores with map_storage := r.1 }, r.2)
  | DataCmd.Sequence write =>
      let r := sequence b w write stores.sequence_storage
      ({ stores with sequence_storage := r.1 }, r.2)
  | DataCmd.Account write =>
      let r := account b w write stores.account_storage
      ({ stores with account_storage := r.1 }, r.2)

end Metadata

-- =========================================================================
-- Spec-modelled AT2 transfer-ledger protocol. The bodies of Replica,
-- SectionActor, TransferLedger, RewardLedger and ChurnCoordinator are not
-- among the provided sources (only their duty/type surface is), so they
-- are modelled from the spec, faithful to its words.
-- =========================================================================

namespace AT2

/-- Modelled from the spec: error taxonomy of section 7 (the surfaced
rejections relevant to the modelled operations). -/
inductive TError
  | InvalidSignature
  | SequenceConflict
  | InsufficientBalance
  | StaleSectionKey
  | UnknownAccount
  | RewardStageViolation
deriving DecidableEq

/-- Modelled from the spec: a SignedTransfer is a debit (sender, amount,
per-account sequence number) linked to a credit (recipient), authorized by
the sender's own signature; `sigOk` records whether that signature
verifies. -/
structure SignedTransfer where
  sender : Nat
  recipient : Nat
  amount : Nat
  seq : Nat
  id : Nat
  sigOk : Bool
deriving DecidableEq

/-- Modelled from the spec: an AgreementProof bundles the debit-credit
pair with a threshold signature; it is the only artifact the ledger
accepts as authoritative. -/
structure AgreementProof where
  sender : Nat
  recipient : Nat
  amount : Nat
  seq : Nat
  id : Nat
deriving DecidableEq

/-- Modelled from the spec: a CreditAgreementProof applies money entering
an account (recipient key, amount, unique id). -/
structure CreditProof where
  recipient : Nat
  amount : Nat
  id : Nat
deriving DecidableEq

/-- Modelled from the spec: one Elder's local validating copy of the
ledger: the committed AgreementProofs. -/
structure Replica where
  committed : List AgreementProof
deriving DecidableEq

/-- Whether some committed AgreementProof already occupies the
(account, sequence number) slot. -/
def slotFilled (r : Replica) (sender seq : Nat) : Bool :=
  r.committed.any fun p => p.sender == sender && p.seq == seq

/-- Number of committed AgreementProofs occupying the
(account, sequence number) slot. -/
def countSlot (r : Replica) (sender seq : Nat) : Nat :=
  (r.committed.filter fun p => p.sender == sender && p.seq == seq).length

/-- Sum of committed credit amounts into an account. -/
def creditsTo (r : Replica) (k : Nat) : Nat :=
  ((r.committed.filter fun p => p.recipient == k).map fun p => p.amount).sum

/-- Sum of committed debit amounts out of an account. -/
def debitsFrom (r : Replica) (k : Nat) : Nat :=
  ((r.committed.filter fun p => p.sender == k).map fun p => p.amount).sum

/-- Balance of an account as observed by one Replica. -/
def balance (r : Replica) (k : Nat) : Nat :=
  creditsTo r k - debitsFrom r k

/-- Modelled from the spec: Replica validate(SignedTransfer) checks the
sender signature, checks that no existing AgreementProof occupies the
transfer's sequence number, checks sufficient balance; on failure returns
InvalidSignature, SequenceConflict or InsufficientBalance; no side effect
on rejection. -/
def validate (r : Replica) (t : SignedTransfer) : Except TError Unit :=
  if t.sigOk = false then Except.error TError.InvalidSignature
  else if slotFilled r t.sender t.seq = true then Except.error TError.SequenceConflict
  else if balance r t.sender < t.amount then Except.error TError.InsufficientBalance
  else Except.ok ()

/-- The AgreementProof produced for a validated transfer once a quorum of
Replicas endorse it. -/
def proofOf (t : SignedTransfer) : AgreementProof :=
  { sender := t.sender, recipient := t.recipient, amount := t.amount,
    seq := t.seq, id := t.id }

/-- Modelled from the spec: submitting a SignedTransfer — validation
followed, on success, by quorum aggregation and commit of the resulting
AgreementProof; per section 5, operations touching the same account
sequence slot are serialized, so concurrent submission is modelled as
sequential processing in an arbitrary order. Rejection has no side
effect. -/
def submit (r : Replica) (t : SignedTransfer) : Replica × Except TError Unit :=
  match validate r t with
  | Except.ok _ => ({ committed := proofOf t :: r.committed }, Except.ok ())
  | Except.error e => (r, Except.error e)

end AT2

namespace AT2

-- ----- Replay of the ReplicaEvent log (claim C2) -----

/-- Modelled from the spec: ReplicaEvent is an enum of
{Validated, Registered, Propagated}; the append-only event log from which
ledger state is deterministically replayed. -/
inductive ReplicaEvent
  | Validated (transfer : SignedTransfer)
  | Registered (proof : AgreementProof)
  | Propagated (credit : CreditProof)
deriving DecidableEq

/-- Modelled from the spec: the per-account ledger state derived from the
event log: committed transfer proofs plus credits propagated from other
sections. -/
structure LedgerState where
  committed : List AgreementProof
  credits : List CreditProof
deriving DecidableEq

/-- Modelled from the spec: the effect of one ReplicaEvent on ledger
state: a Validated event records a pending validation and moves no money,
a Registered event commits the agreed debit-credit pair, a Propagated
event applies an incoming credit from another section. -/
def applyEvent (s : LedgerState) : ReplicaEvent → LedgerState
  | ReplicaEvent.Validated _ => s
  | ReplicaEvent.Registered p => { s with committed := p :: s.committed }
  | ReplicaEvent.Propagated c => { s with credits := c :: s.credits }

/-- Modelled from the spec: replay(events) is a pure reconstruction of the
ledger from an ordered sequence of ReplicaEvents, starting from genesis. -/
def replay (events : List ReplicaEvent) : LedgerState :=
  events.foldl applyEvent { committed := [], credits := [] }

/-- Balance of an account over a replayed ledger state: credits (committed
and propagated) minus debits. -/
def ledgerBalance (s : LedgerState) (k : Nat) : Nat :=
  ((s.committed.filter fun p => p.recipient == k).map fun p => p.amount).sum
    + ((s.credits.filter fun c => c.recipient == k).map fun c => c.amount).sum
    - ((s.committed.filter fun p => p.sender == k).map fun p => p.amount).sum

/-- Modelled from the spec: one Replica process, holding its derived
ledger state plus arbitrary other local data (the spec requires that no
hidden local state may influence replayed balances). -/
structure ReplicaNode where
  localState : LedgerState
  hiddenLocal : Nat
deriving DecidableEq

/-- Modelled from the spec: TransferCmd::InitiateReplica initiates a new
Replica with the state of existing Replicas in the group, i.e. replaces
its ledger state with the replay of the supplied event log. -/
def initiateReplica (r : ReplicaNode) (events : List ReplicaEvent) : ReplicaNode :=
  { r with localState := replay events }

-- ----- WalletHistory balance arithmetic (claim C3) -----

/-- Modelled from the spec: one entry of a WalletHistory as it affects one
account: an accepted credit or an accepted debit of some amount. -/
inductive WalletOp
  | credit (amount : Nat)
  | debit (amount : Nat)
deriving DecidableEq

/-- Modelled from the spec: acceptance of one operation against a balance;
a credit always enters, a debit is accepted only if the signing Replicas
observed sufficient balance (invariant 2), otherwise it is rejected. -/
def applyAccepted : Nat → WalletOp → Option Nat
  | bal, WalletOp.credit a => some (bal + a)
  | bal, WalletOp.debit a => if a ≤ bal then some (bal - a) else none

/-- Modelled from the spec: running a WalletHistory in order, where every
operation must be accepted; returns none if any debit would overdraw. -/
def runHistory : Nat → List WalletOp → Option Nat
  | bal, [] => some bal
  | bal, op :: rest =>
    match applyAccepted bal op with
    | some b => runHistory b rest
    | none => none

/-- Sum of the credit amounts of a history. -/
def creditSum : List WalletOp → Nat
  | [] => 0
  | WalletOp.credit a :: rest => a + creditSum rest
  | WalletOp.debit _ :: rest => creditSum rest

/-- Sum of the debit amounts of a history. -/
def debitSum : List WalletOp → Nat
  | [] => 0
  | WalletOp.credit _ :: rest => debitSum rest
  | WalletOp.debit a :: rest => a + debitSum rest

-- ----- Churn / section-key rotation (claim C4) -----

/-- Modelled from the spec: an AgreementProof as submitted for
registration across a churn transition: its unique id, the section key
its threshold signature verifies under, and the in-flight timestamp at
which its registration was initiated. -/
structure KeyedProof where
  id : Nat
  key : Nat
  timestamp : Nat
deriving DecidableEq

/-- Modelled from the spec: the section-wide key state kept by the
ChurnCoordinator: the section key currently in force, the retired key (if
an elder change happened), the grace-window deadline, and the ids of
proofs already accepted by the ledger. -/
structure ChurnState where
  currentKey : Nat
  prevKey : Option Nat
  deadline : Nat
  registered : List Nat
deriving DecidableEq

/-- Modelled from the spec: complete(previous_key, new_key) publishes the
new section public key; from this point proofs must be signed under
new_key, and previous_key proofs are honored only inside the bounded
churn grace window ending at the grace deadline. -/
def complete (s : ChurnState) (previous_key new_key : Nat)
    (grace_deadline : Nat) : ChurnState :=
  { s with currentKey := new_key, prevKey := some previous_key,
           deadline := grace_deadline }

/-- Modelled from the spec: register(AgreementProof) verifies the proof
against the section key in force at the time of acceptance. Proofs under
the current key are accepted (idempotently: re-registering an identical
proof is a no-op, not an error). Proofs under the retired key are honored
only inside the grace window — submitted no later than the deadline, with
an in-flight timestamp before the deadline — and otherwise rejected with
StaleSectionKey; proofs under any other key fail signature
verification. -/
def register (s : ChurnState) (p : KeyedProof) (now : Nat) :
    ChurnState × Except TError Unit :=
  if p.key = s.currentKey then
    if p.id ∈ s.registered then (s, Except.ok ())
    else ({ s with registered := p.id :: s.registered }, Except.ok ())
  else if s.prevKey = some p.key then
    if p.timestamp < s.deadline ∧ now ≤ s.deadline then
      if p.id ∈ s.registered then (s, Except.ok ())
      else ({ s with registered := p.id :: s.registered }, Except.ok ())
    else (s, Except.error TError.StaleSectionKey)
  else (s, Except.error TError.InvalidSignature)

/-- Number of times a proof id occurs among the accepted registrations. -/
def countId (l : List Nat) (i : Nat) : Nat :=
  (l.filter fun x => x == i).length

-- ----- RewardLedger payouts (claim C5) -----

/-- Modelled from the spec: the RewardLedger tracks NodeRewardStage per
node id (an ordered association list keyed by node identity). -/
structure RewardLedger where
  stages : List (Nat × NodeRewardStage)
deriving DecidableEq

/-- Stage lookup by node id. -/
def lookupStage (l : RewardLedger) (node_id : Nat) : Option NodeRewardStage :=
  (l.stages.find? fun e => e.1 == node_id).map fun e => e.2

/-- Modelled from the spec: the section state touched by a payout: the
RewardLedger and the TransferLedger side through which payout credits are
submitted as ordinary transfers. -/
structure SectionState where
  rewards : RewardLedger
  transfers : List CreditProof
deriving DecidableEq

/-- Modelled from the spec: issue_payout(node_id, amount) is only
permitted for Active nodes: it constructs a Credit to the node's bound
wallet and submits it through SectionActor as an ordinary transfer;
payouts to non-Active (in particular Deactivated) nodes are rejected with
RewardStageViolation and produce no ledger change. -/
def issue_payout (s : SectionState) (node_id amount payout_id : Nat) :
    SectionState × Except TError Unit :=
  match lookupStage s.rewards node_id with
  | some (NodeRewardStage.Active wallet) =>
      ({ s with transfers :=
          { recipient := wallet, amount := amount, id := payout_id } :: s.transfers },
       Except.ok ())
  | _ => (s, Except.error TError.RewardStageViolation)

end AT2

-- =========================================================================
-- Theorems for the source-based claims (C6-C10).
-- =========================================================================

/-- Claim C6: for every RewardDuty other than NoOp, the conversion to
NetworkDuties produces exactly the singleton list
[RunAsElder (RunAsDataSection (RunAsRewards duty))] — every reward command
is wrapped in the Elder/DataSection/Rewards envelope by this explicit
construction function. -/
theorem rewardDuty_into_networkDuties_envelope (d : RewardDuty)
    (h : ¬ d = RewardDuty.NoOp) :
    networkDutiesOfReward d =
      [NetworkDuty.RunAsElder (ElderDuty.RunAsDataSection
        (DataSectionDuty.RunAsRewards d))] := by
  cases d with
  | NoOp => exact absurd rfl h
  | ProcessQuery q m o => rfl
  | ProcessCmd c m o => rfl

/-- Witness for claim C6 at a concrete non-NoOp reward duty. -/
theorem rewardDuty_into_networkDuties_envelope_witness :
    networkDutiesOfReward (RewardDuty.ProcessCmd (RewardCmd.AddNewNode 7) 1 2) =
      [NetworkDuty.RunAsElder (ElderDuty.RunAsDataSection
        (DataSectionDuty.RunAsRewards
          (RewardDuty.ProcessCmd (RewardCmd.AddNewNode 7) 1 2)))] :=
  rewardDuty_into_networkDuties_envelope
    (RewardDuty.ProcessCmd (RewardCmd.AddNewNode 7) 1 2) (by decide)

/-- Claim C7: converting any NodeDuty to NodeDuties yields a list of
length at most one — empty exactly when the duty is NoOp, and the
singleton list containing the duty itself otherwise. -/
theorem nodeDuty_into_duties_zero_or_one (d : NodeDuty) :
    (nodeDutiesOf d).length ≤ 1 ∧
    (nodeDutiesOf d = [] ↔ d = NodeDuty.NoOp) ∧
    (¬ d = NodeDuty.NoOp → nodeDutiesOf d = [d]) := by
  cases d <;> simp [nodeDutiesOf, NodeDuty.isNoOp]

/-- Witness for claim C7 at a concrete non-NoOp node duty. -/
theorem nodeDuty_into_duties_zero_or_one_witness :
    nodeDutiesOf NodeDuty.LevelUp = [NodeDuty.LevelUp] :=
  (nodeDuty_into_duties_zero_or_one NodeDuty.LevelUp).2.2 (by decide)

/-- Counterexample for claim C9: at AdultDuty.NoOp the conversion to
NetworkDuties yields the empty list while the singleton conversion to
NetworkDuty yields RunAsAdult NoOp, so the two From paths disagree at the
NoOp variant. -/
theorem adult_noop_conversion_paths_disagree :
    networkDutiesOfAdult AdultDuty.NoOp ≠ [networkDutyOfAdult AdultDuty.NoOp] := by
  decide

/-- Claim C9 (amended): for every AdultDuty and every RewardDuty other
than NoOp, the list conversion to NetworkDuties equals the one-element
list containing the singleton conversion to NetworkDuty; at NoOp the list
conversions instead yield the empty list. -/
theorem adult_reward_conversion_paths_agree_off_noop
    (a : AdultDuty) (r : RewardDuty)
    (ha : ¬ a = AdultDuty.NoOp) (hr : ¬ r = RewardDuty.NoOp) :
    networkDutiesOfAdult a = [networkDutyOfAdult a] ∧
    networkDutiesOfReward r = [networkDutyOfReward r] ∧
    networkDutiesOfAdult AdultDuty.NoOp = [] ∧
    networkDutiesOfReward RewardDuty.NoOp = [] := by
  refine ⟨?_, ?_, rfl, rfl⟩
  · cases a with
    | NoOp => exact absurd rfl ha
    | RunAsChunkStore d => rfl
    | RunAsChunkReplication d => rfl
  · cases r with
    | NoOp => exact absurd rfl hr
    | ProcessQuery q m o => rfl
    | ProcessCmd c m o => rfl

/-- Witness for amended claim C9 at concrete non-NoOp duties. -/
theorem adult_reward_conversion_paths_agree_off_noop_witness :
    networkDutiesOfAdult (AdultDuty.RunAsChunkStore ChunkStoreDuty.NoOp) =
      [networkDutyOfAdult (AdultDuty.RunAsChunkStore ChunkStoreDuty.NoOp)] ∧
    networkDutiesOfReward (RewardDuty.ProcessCmd (RewardCmd.DeactivateNode 4) 0 0) =
      [networkDutyOfReward (RewardDuty.ProcessCmd (RewardCmd.DeactivateNode 4) 0 0)] ∧
    networkDutiesOfAdult AdultDuty.NoOp = [] ∧
    networkDutiesOfReward RewardDuty.NoOp = [] :=
  adult_reward_conversion_paths_agree_off_noop
    (AdultDuty.RunAsChunkStore ChunkStoreDuty.NoOp)
    (RewardDuty.ProcessCmd (RewardCmd.DeactivateNode 4) 0 0)
    (by decide) (by decide)

/-- Claim C10: the conversion from a client-facing TransferCmd into the
internal TransferCmd produces only SimulatePayout, ValidateTransfer or
RegisterTransfer, carrying the identical payload; in particular it never
produces InitiateReplica, ProcessPayment, PropagateTransfer,
ValidateSectionPayout or RegisterSectionPayout. -/
theorem clientTransferCmd_conversion_range (c : ClientTransferCmd) :
    (transferCmdOfClient c).clientOriginated = true ∧
    transferCmdOfClient c =
      (match c with
       | ClientTransferCmd.SimulatePayout t => TransferCmd.SimulatePayout t
       | ClientTransferCmd.ValidateTransfer st => TransferCmd.ValidateTransfer st
       | ClientTransferCmd.RegisterTransfer p => TransferCmd.RegisterTransfer p) := by
  cases c <;> exact ⟨rfl, rfl⟩

/-- Claim C8: Writing::get_result forwards the write to exactly the store
matching the command's variant and returns that store's result unchanged,
with the other three stores untouched, for every possible behavior of the
four stores. -/
theorem writing_get_result_forwards (b : Metadata.StoreBehavior)
    (msg : Metadata.MsgEnvelope) (st : Metadata.ElderStores) :
    (∀ w, Metadata.get_result b ⟨Metadata.DataCmd.Blob w, msg⟩ st =
        ({ st with blob_register := (b.blobWrite w msg st.blob_register).1 },
         (b.blobWrite w msg st.blob_register).2)) ∧
    (∀ w, Metadata.get_result b ⟨Metadata.DataCmd.Map w, msg⟩ st =
        ({ st with map_storage := (b.mapWrite w msg st.map_storage).1 },
         (b.mapWrite w msg st.map_storage).2)) ∧
    (∀ w, Metadata.get_result b ⟨Metadata.DataCmd.Sequence w, msg⟩ st =
        ({ st with sequence_storage :=
             (b.sequenceWrite w msg.id msg.origin st.sequence_storage).1 },
         (b.sequenceWrite w msg.id msg.origin st.sequence_storage).2)) ∧
    (∀ w, Metadata.get_result b ⟨Metadata.DataCmd.Account w, msg⟩ st =
        ({ st with account_storage :=
             (b.accountWrite w msg.id msg.origin st.account_storage).1 },
         (b.accountWrite w msg.id msg.origin st.account_storage).2)) :=
  ⟨fun _ => rfl, fun _ => rfl, fun _ => rfl, fun _ => rfl⟩

-- =========================================================================
-- Theorems for the spec-modelled protocol claims (C1-C5).
-- =========================================================================

/-- Claim C2: replaying any ReplicaEvent log on two independent Replicas
yields identical ledger state, in particular identical balances for every
account; replay is a function of the log alone, so no hidden local state
of either Replica influences the result. -/
theorem replay_deterministic (r1 r2 : AT2.ReplicaNode)
    (events : List AT2.ReplicaEvent) :
    (AT2.initiateReplica r1 events).localState =
      (AT2.initiateReplica r2 events).localState ∧
    ∀ k, AT2.ledgerBalance (AT2.initiateReplica r1 events).localState k =
         AT2.ledgerBalance (AT2.initiateReplica r2 events).localState k :=
  ⟨rfl, fun _ => rfl⟩

/-- Claim C5: issuing a payout to a node whose reward stage is Deactivated
always fails with RewardStageViolation and leaves both the RewardLedger
and the TransferLedger unchanged. -/
theorem deactivated_payout_rejected (s : AT2.SectionState)
    (node_id amount payout_id : Nat)
    (h : AT2.lookupStage s.rewards node_id = some NodeRewardStage.Deactivated) :
    AT2.issue_payout s node_id amount payout_id =
      (s, Except.error AT2.TError.RewardStageViolation) ∧
    (AT2.issue_payout s node_id amount payout_id).1.rewards = s.rewards ∧
    (AT2.issue_payout s node_id amount payout_id).1.transfers = s.transfers := by
  unfold AT2.issue_payout
  rw [h]
  exact ⟨rfl, rfl, rfl⟩

/-- Witness for claim C5 at a concrete section state holding one
deactivated node. -/
theorem deactivated_payout_rejected_witness :
    AT2.issue_payout ⟨⟨[(3, NodeRewardStage.Deactivated)]⟩, []⟩ 3 500 9 =
      (⟨⟨[(3, NodeRewardStage.Deactivated)]⟩, []⟩,
       Except.error AT2.TError.RewardStageViolation) :=
  (deactivated_payout_rejected ⟨⟨[(3, NodeRewardStage.Deactivated)]⟩, []⟩ 3 500 9
    (by decide)).1

/-- Accepted runs of a WalletHistory satisfy: final balance equals the
initial balance plus credits minus debits. -/
theorem runHistory_balance (ops : List AT2.WalletOp) :
    ∀ b0 bal : Nat, AT2.runHistory b0 ops = some bal →
      (bal : Int) = (b0 : Int) + AT2.creditSum ops - AT2.debitSum ops := by
  induction ops with
  | nil =>
    intro b0 bal h
    simp [AT2.runHistory] at h
    simp [h, AT2.creditSum, AT2.debitSum]
  | cons op rest ih =>
    intro b0 bal h
    cases op with
    | credit a =>
      simp only [AT2.runHistory, AT2.applyAccepted] at h
      have := ih (b0 + a) bal h
      simp only [AT2.creditSum, AT2.debitSum]
      push_cast at this ⊢
      omega
    | debit a =>
      simp only [AT2.runHistory, AT2.applyAccepted] at h
      by_cases ha : a ≤ b0
      · rw [if_pos ha] at h
        have := ih (b0 - a) bal h
        simp only [AT2.creditSum, AT2.debitSum]
        have hc : ((b0 - a : Nat) : Int) = (b0 : Int) - a := by
          omega
        push_cast at this ⊢
        omega
      · rw [if_neg ha] at h
        exact absurd h (by simp)

/-- Claim C3: after N accepted credits and M accepted debits, the balance
equals the sum of the credit amounts minus the sum of the debit amounts
over the account's history, and this value is never negative. -/
theorem balance_is_credits_minus_debits (ops : List AT2.WalletOp) (bal : Nat)
    (h : AT2.runHistory 0 ops = some bal) :
    (bal : Int) = (AT2.creditSum ops : Int) - AT2.debitSum ops ∧
    (0 : Int) ≤ (AT2.creditSum ops : Int) - AT2.debitSum ops := by
  have hb := runHistory_balance ops 0 bal h
  constructor
  · omega
  · omega

/-- Witness for claim C3 on a concrete accepted history: a credit of 5
then a debit of 3, ending at balance 2. -/
theorem balance_is_credits_minus_debits_witness :
    ((2 : Nat) : Int) =
      (AT2.creditSum [AT2.WalletOp.credit 5, AT2.WalletOp.debit 3] : Int) -
        AT2.debitSum [AT2.WalletOp.credit 5, AT2.WalletOp.debit 3] ∧
    (0 : Int) ≤
      (AT2.creditSum [AT2.WalletOp.credit 5, AT2.WalletOp.debit 3] : Int) -
        AT2.debitSum [AT2.WalletOp.credit 5, AT2.WalletOp.debit 3] :=
  balance_is_credits_minus_debits [AT2.WalletOp.credit 5, AT2.WalletOp.debit 3] 2
    (by decide)

/-- Successful validation means: the sender signature verifies, the
sequence slot is free, and the balance suffices. -/
theorem validate_ok_iff (r : AT2.Replica) (t : AT2.SignedTransfer) :
    AT2.validate r t = Except.ok () ↔
      t.sigOk = true ∧ AT2.slotFilled r t.sender t.seq = false ∧
      ¬ AT2.balance r t.sender < t.amount := by
  unfold AT2.validate
  split_ifs with h1 h2 h3 <;> simp_all

/-- An unoccupied sequence slot holds zero committed proofs. -/
theorem countSlot_zero_of_not_filled (r : AT2.Replica) (s q : Nat)
    (h : AT2.slotFilled r s q = false) : AT2.countSlot r s q = 0 := by
  unfold AT2.slotFilled at h
  unfold AT2.countSlot
  rw [List.length_eq_zero, List.filter_eq_nil_iff]
  rw [List.any_eq_false] at h
  exact h

/-- Claim C1: of any pair of conflicting SignedTransfers sharing one
(account, sequence number) slot, both individually valid, processed in
either serialization order, the first produces the committed
AgreementProof, the second deterministically fails with SequenceConflict,
and exactly one AgreementProof ends up committed for that slot. -/
theorem agreement_proof_unique_per_seq (r0 : AT2.Replica)
    (t1 t2 : AT2.SignedTransfer)
    (hs : t2.sender = t1.sender) (hq : t2.seq = t1.seq)
    (h1 : AT2.validate r0 t1 = Except.ok ())
    (h2 : AT2.validate r0 t2 = Except.ok ()) :
    (AT2.submit r0 t1).2 = Except.ok () ∧
    (AT2.submit (AT2.submit r0 t1).1 t2).2 =
      Except.error AT2.TError.SequenceConflict ∧
    AT2.countSlot (AT2.submit (AT2.submit r0 t1).1 t2).1 t1.sender t1.seq = 1 := by
  obtain ⟨hsig1, hfree1, hbal1⟩ := (validate_ok_iff r0 t1).mp h1
  obtain ⟨hsig2, hfree2, hbal2⟩ := (validate_ok_iff r0 t2).mp h2
  have hsub1 : AT2.submit r0 t1 =
      ({ committed := AT2.proofOf t1 :: r0.committed }, Except.ok ()) := by
    unfold AT2.submit
    rw [h1]
  have hfill : AT2.slotFilled
      { committed := AT2.proofOf t1 :: r0.committed } t2.sender t2.seq = true := by
    unfold AT2.slotFilled
    simp [AT2.proofOf, hs, hq]
  have hv2 : AT2.validate
      { committed := AT2.proofOf t1 :: r0.committed } t2 =
      Except.error AT2.TError.SequenceConflict := by
    unfold AT2.validate
    rw [hsig2]
    simp [hfill]
  have hsub2 : AT2.submit
      { committed := AT2.proofOf t1 :: r0.committed } t2 =
      ({ committed := AT2.proofOf t1 :: r0.committed },
       Except.error AT2.TError.SequenceConflict) := by
    unfold AT2.submit
    rw [hv2]
  have hcount0 := countSlot_zero_of_not_filled r0 t1.sender t1.seq hfree1
  refine ⟨by rw [hsub1], by rw [hsub1, hsub2], ?_⟩
  rw [hsub1, hsub2]
  unfold AT2.countSlot at hcount0 ⊢
  simp [AT2.proofOf, List.filter_cons] at hcount0 ⊢
  exact hcount0

/-- Witness for claim C1: account 1 holds 1000 from a committed credit;
two valid transfers of 300 from account 1 both carry sequence number 0;
the first commits, the second fails with SequenceConflict, and exactly one
proof occupies the slot. -/
theorem agreement_proof_unique_per_seq_witness :
    (AT2.submit ⟨[⟨99, 1, 1000, 0, 50⟩]⟩ ⟨1, 2, 300, 0, 7, true⟩).2 =
      Except.ok () ∧
    (AT2.submit (AT2.submit ⟨[⟨99, 1, 1000, 0, 50⟩]⟩ ⟨1, 2, 300, 0, 7, true⟩).1
      ⟨1, 3, 300, 0, 8, true⟩).2 = Except.error AT2.TError.SequenceConflict ∧
    AT2.countSlot
      (AT2.submit (AT2.submit ⟨[⟨99, 1, 1000, 0, 50⟩]⟩ ⟨1, 2, 300, 0, 7, true⟩).1
        ⟨1, 3, 300, 0, 8, true⟩).1 1 0 = 1 :=
  agreement_proof_unique_per_seq ⟨[⟨99, 1, 1000, 0, 50⟩]⟩
    ⟨1, 2, 300, 0, 7, true⟩ ⟨1, 3, 300, 0, 8, true⟩
    rfl rfl rfl rfl

/-- A proof id absent from the accepted registrations has count zero. -/
theorem countId_zero_of_not_mem (l : List Nat) (i : Nat) (h : i ∉ l) :
    AT2.countId l i = 0 := by
  unfold AT2.countId
  rw [List.length_eq_zero, List.filter_eq_nil_iff]
  intro a ha
  simp only [beq_iff_eq]
  intro hai
  exact h (hai ▸ ha)

/-- Registering a fresh proof id increments its count by one. -/
theorem countId_cons_self (l : List Nat) (i : Nat) :
    AT2.countId (i :: l) i = AT2.countId l i + 1 := by
  simp [AT2.countId, List.filter_cons]

/-- Registration of a proof under the retired section key outside the
grace window is rejected with StaleSectionKey and changes nothing. -/
theorem register_old_key_stale (ck okk dl : Nat) (reg : List Nat)
    (p : AT2.KeyedProof) (now : Nat)
    (hk : p.key = okk) (hne : ¬ okk = ck)
    (hnot : ¬ (p.timestamp < dl ∧ now ≤ dl)) :
    AT2.register ⟨ck, some okk, dl, reg⟩ p now =
      (⟨ck, some okk, dl, reg⟩, Except.error AT2.TError.StaleSectionKey) := by
  unfold AT2.register
  split_ifs <;> simp_all

/-- Registration of a fresh proof under the retired section key inside
the grace window is accepted and recorded. -/
theorem register_old_key_accept (ck okk dl : Nat) (reg : List Nat)
    (p : AT2.KeyedProof) (now : Nat)
    (hk : p.key = okk) (hne : ¬ okk = ck)
    (hcond : p.timestamp < dl ∧ now ≤ dl) (hfresh : p.id ∉ reg) :
    AT2.register ⟨ck, some okk, dl, reg⟩ p now =
      (⟨ck, some okk, dl, p.id :: reg⟩, Except.ok ()) := by
  unfold AT2.register
  split_ifs <;> simp_all

/-- Re-registration of an already recorded proof under the retired key
inside the grace window is an idempotent no-op. -/
theorem register_old_key_idempotent (ck okk dl : Nat) (reg : List Nat)
    (p : AT2.KeyedProof) (now : Nat)
    (hk : p.key = okk) (hne : ¬ okk = ck)
    (hcond : p.timestamp < dl ∧ now ≤ dl) (hdup : p.id ∈ reg) :
    AT2.register ⟨ck, some okk, dl, reg⟩ p now =
      (⟨ck, some okk, dl, reg⟩, Except.ok ()) := by
  unfold AT2.register
  split_ifs <;> simp_all

/-- Claim C4: after complete(old_key, new_key) with grace deadline dl, a
proof signed under old_key submitted after the grace window is rejected
with StaleSectionKey and changes nothing, while one with an in-flight
timestamp before the deadline, submitted within the window, is accepted
exactly once: it registers on first submission, and any resubmission
(inside or outside the window) leaves its registration count at one. -/
theorem stale_key_rejected_inflight_once (s0 : AT2.ChurnState)
    (oldK newK dl : Nat) (p : AT2.KeyedProof) (tLate tIn tAgain : Nat)
    (hk : p.key = oldK) (hne : ¬ oldK = newK)
    (hfresh : p.id ∉ s0.registered)
    (hlate : dl < tLate) (hin : tIn ≤ dl) (hts : p.timestamp < dl) :
    AT2.register (AT2.complete s0 oldK newK dl) p tLate =
      (AT2.complete s0 oldK newK dl, Except.error AT2.TError.StaleSectionKey) ∧
    (AT2.register (AT2.complete s0 oldK newK dl) p tIn).2 = Except.ok () ∧
    AT2.countId
      (AT2.register (AT2.complete s0 oldK newK dl) p tIn).1.registered p.id = 1 ∧
    AT2.countId
      (AT2.register (AT2.register (AT2.complete s0 oldK newK dl) p tIn).1
        p tAgain).1.registered p.id = 1 := by
  have hzero := countId_zero_of_not_mem s0.registered p.id hfresh
  have hcomp : AT2.complete s0 oldK newK dl =
      ⟨newK, some oldK, dl, s0.registered⟩ := rfl
  have hone : AT2.countId (p.id :: s0.registered) p.id = 1 := by
    rw [countId_cons_self, hzero]
  have hA := register_old_key_stale newK oldK dl s0.registered p tLate
    hk hne (by omega)
  have hB := register_old_key_accept newK oldK dl s0.registered p tIn
    hk hne ⟨hts, hin⟩ hfresh
  refine ⟨by rw [hcomp, hA], by rw [hcomp, hB], by rw [hcomp, hB]; exact hone, ?_⟩
  rw [hcomp, hB]
  by_cases hcase : p.timestamp < dl ∧ tAgain ≤ dl
  · rw [register_old_key_idempotent newK oldK dl (p.id :: s0.registered) p tAgain
      hk hne hcase (List.mem_cons_self p.id s0.registered)]
    exact hone
  · rw [register_old_key_stale newK oldK dl (p.id :: s0.registered) p tAgain
      hk hne hcase]
    exact hone

/-- Witness for claim C4 at a concrete churn transition: old key 1
retired for new key 2 with grace deadline 10; a proof under key 1 with
in-flight timestamp 3 is rejected when submitted at time 11, and accepted
exactly once when submitted at time 4 and resubmitted at time 20. -/
theorem stale_key_rejected_inflight_once_witness :
    AT2.register (AT2.complete ⟨1, none, 0, []⟩ 1 2 10) ⟨5, 1, 3⟩ 11 =
      (AT2.complete ⟨1, none, 0, []⟩ 1 2 10,
       Except.error AT2.TError.StaleSectionKey) ∧
    (AT2.register (AT2.complete ⟨1, none, 0, []⟩ 1 2 10) ⟨5, 1, 3⟩ 4).2 =
      Except.ok () ∧
    AT2.countId
      (AT2.register (AT2.complete ⟨1, none, 0, []⟩ 1 2 10) ⟨5, 1, 3⟩ 4).1.registered
      5 = 1 ∧
    AT2.countId
      (AT2.register
        (AT2.register (AT2.complete ⟨1, none, 0, []⟩ 1 2 10) ⟨5, 1, 3⟩ 4).1
        ⟨5, 1, 3⟩ 20).1.registered 5 = 1 :=
  stale_key_rejected_inflight_once ⟨1, none, 0, []⟩ 1 2 10 ⟨5, 1, 3⟩ 11 4 20
    rfl (by decide) (by decide) (by decide) (by decide) (by decide)
